import Mathlib

/-!
Shallow embedding of `src/blingfire/src/lib.rs`, a thin Rust FFI wrapper
around the BlingFire native tokenization library.

Modelling conventions:
* A Rust `&str` is modelled by its UTF-8 byte sequence, `List Nat`
  (`source.as_bytes().len()` is `List.length`, `source.is_empty()` is
  `length = 0`).
* A native pointer (`*mut c_void`) is modelled as a `Nat`; the null
  pointer is `0`.
* The opaque native library (the `blingfire_sys` FFI functions) is a
  parameter of every wrapper function: a `NativeLib` structure giving,
  for each native entry point, the value it would return.  The native
  `TextToIds` routine writes token ids into a caller-owned buffer; its
  oracle returns the sequence of ids it writes, which the embedding
  overlays on the buffer (`writeInto`).
* Every wrapper also returns the list of native calls it performed
  (`List FfiCall`), so that "the native routine was not invoked" and
  "the value passed for argument x was c" are statable.
* Rust `Result<T, Error>` together with the possibility of a panic
  (`CString::new(..).unwrap()`) is modelled by `RustResult`.
-/

/-- A record of one call into the native library, with the exact
argument values the wrapper passed. -/
inductive FfiCall where
  | loadModel (path : List Nat) : FfiCall
  | textToIds (handle : Nat) (text : List Nat) (textLen : Int)
      (cap : Int) (selector : Int) : FfiCall
  | freeModel (handle : Nat) : FfiCall
  deriving DecidableEq, Repr

/-- Modelled from the spec: the error taxonomy of the missing
`src/blingfire/src/errors.rs` module (`mod errors;` in `lib.rs`).  The
spec names exactly two failure kinds: `ModelLoadFailure` (the native
load returned a null handle) and `ModelFreeFailure` (the native free
reported non-success); `lib.rs` refers to them as
`errors::LoadModelError` and `errors::FreeModelError`. -/
inductive Error where
  | loadModelError : Error
  | freeModelError : Error
  deriving DecidableEq, Repr

/-- Outcome of a Rust function in this wrapper: `Ok`, `Err`, or a panic
(`unwrap` on an `Err`, which aborts before returning). -/
inductive RustResult (α : Type) where
  | ok (a : α) : RustResult α
  | err (e : Error) : RustResult α
  | panicked : RustResult α
  deriving DecidableEq, Repr

/-- The opaque native library behind the FFI boundary, as an oracle:
for each entry point, the value the native code would produce for given
arguments.  `textToIdsFfi` returns the token ids the native routine
writes into the output buffer (it fills a leading run of the buffer). -/
structure NativeLib where
  loadModelFfi : List Nat → Nat
  textToIdsFfi : Nat → List Nat → Int → Int → Int → List Int
  freeModelFfi : Nat → Int

/-- `i32::MAX` of the native fixed-width signed integers. -/
def i32Max : Int := 2147483647

/-- Rust `usize_value.try_into().unwrap_or(i32::MAX)`: the conversion
from `usize` to `i32` succeeds exactly when the value fits, and the
failure is replaced by `i32::MAX`. -/
def saturate_i32 (n : Nat) : Int :=
  if (n : Int) ≤ i32Max then (n : Int) else i32Max

/-- `CString::new(bytes)`: fails (with `NulError`) exactly when the byte
sequence has an embedded null byte; otherwise yields the same bytes. -/
def cstringNew (bytes : List Nat) : Option (List Nat) :=
  if 0 ∈ bytes then none else some bytes

/-- The native routine writing the ids `w` into the caller-owned buffer
`buf`: it overwrites a leading run of `buf` and cannot write past the
buffer's end, so the buffer keeps its length. -/
def writeInto (buf : List Int) (w : List Int) : List Int :=
  w.take buf.length ++ buf.drop w.length

/-- `load_model` from `lib.rs`: build a C string from the path
(`unwrap` panics on an embedded null byte), call the native `LoadModel`,
and `ensure!` the returned pointer is non-null, surfacing
`LoadModelError` otherwise. -/
def load_model (lib : NativeLib) (model_path : List Nat) :
    RustResult Nat × List FfiCall :=
  match cstringNew model_path with
  | none => (RustResult.panicked, [])
  | some c_str =>
    let model_ptr := lib.loadModelFfi c_str
    if model_ptr = 0 then
      (RustResult.err Error.loadModelError, [FfiCall.loadModel c_str])
    else
      (RustResult.ok model_ptr, [FfiCall.loadModel c_str])

/-- `text_to_ids` from `lib.rs`: allocate a zero-filled `Vec<i32>` of
the input's byte length; if the input is empty return it immediately
without any native call; otherwise call the native `TextToIds` with the
saturated byte length, the saturated buffer length, and the constant
selector `3`, and return the (possibly partially overwritten) buffer. -/
def text_to_ids (lib : NativeLib) (model_ptr : Nat) (source : List Nat) :
    RustResult (List Int) × List FfiCall :=
  let src_byte_len := source.length
  let destination : List Int := List.replicate src_byte_len 0
  if source.length = 0 then
    (RustResult.ok destination, [])
  else
    let text_len := saturate_i32 src_byte_len
    let cap := saturate_i32 destination.length
    let written := lib.textToIdsFfi model_ptr source text_len cap 3
    (RustResult.ok (writeInto destination written),
      [FfiCall.textToIds model_ptr source text_len cap 3])

/-- `free_model` from `lib.rs`: call the native `FreeModel` and
`ensure!` its status code is `1` (success), surfacing `FreeModelError`
on any other status. -/
def free_model (lib : NativeLib) (model_ptr : Nat) :
    RustResult Unit × List FfiCall :=
  let result := lib.freeModelFfi model_ptr
  if result = 1 then
    (RustResult.ok (), [FfiCall.freeModel model_ptr])
  else
    (RustResult.err Error.freeModelError, [FfiCall.freeModel model_ptr])

/-! ### Helper lemmas about the buffer-write model -/

/-- Writing into a buffer never changes its length: the native routine
fills slots in place, it cannot grow or shrink the caller's vector. -/
theorem writeInto_length (buf w : List Int) :
    (writeInto buf w).length = buf.length := by
  simp [writeInto]
  omega

/-- Past the run of slots the native routine wrote, a zero-initialized
buffer still holds zeros. -/
theorem writeInto_replicate_drop (n : Nat) (w : List Int) :
    (writeInto (List.replicate n 0) w).drop w.length =
      List.replicate (n - w.length) (0 : Int) := by
  unfold writeInto
  simp only [List.length_replicate]
  rcases le_or_lt w.length n with hle | hlt
  · rw [List.take_of_length_le hle, List.drop_replicate]
    exact List.drop_left w (List.replicate (n - w.length) 0)
  · have h1 : (List.replicate n (0 : Int)).drop w.length = [] := by
      apply List.drop_eq_nil_of_le
      simp only [List.length_replicate]
      omega
    have h2 : n - w.length = 0 := by omega
    rw [h1, h2, List.append_nil, List.replicate_zero]
    apply List.drop_eq_nil_of_le
    simp only [List.length_take, List.length_replicate]
    omega

/-- A concrete native library used to instantiate the theorems at
specific inputs: loading always yields handle `5`, tokenizing always
writes the single id `7`, freeing always reports status `1`. -/
def exLib : NativeLib where
  loadModelFfi := fun _ => 5
  textToIdsFfi := fun _ _ _ _ _ => [7]
  freeModelFfi := fun _ => 1

/-! ### Claim theorems -/

/-- C1: `load_model` returns `LoadModelError` if and only if the native
`LoadModel` call returns a null pointer, and whenever it returns `Ok`
the returned handle is non-null (and is exactly the native handle). -/
theorem load_model_err_iff_null (lib : NativeLib) (path : List Nat)
    (hpath : 0 ∉ path) :
    ((load_model lib path).1 = RustResult.err Error.loadModelError ↔
      lib.loadModelFfi path = 0) ∧
    (∀ h, (load_model lib path).1 = RustResult.ok h → h ≠ 0) := by
  simp only [load_model, cstringNew, if_neg hpath]
  by_cases h0 : lib.loadModelFfi path = 0 <;> simp [h0]

/-- Witness for C1 at the path `[104]` and the library `exLib`. -/
theorem load_model_err_iff_null_witness :
    (0 : Nat) ∉ ([104] : List Nat) ∧
    (((load_model exLib [104]).1 = RustResult.err Error.loadModelError ↔
      exLib.loadModelFfi [104] = 0) ∧
    (∀ h, (load_model exLib [104]).1 = RustResult.ok h → h ≠ 0)) :=
  ⟨by decide, load_model_err_iff_null exLib [104] (by decide)⟩

/-- C2: on the empty string `text_to_ids` returns `Ok` with the empty
vector and performs no native call at all. -/
theorem text_to_ids_empty (lib : NativeLib) (model_ptr : Nat) :
    text_to_ids lib model_ptr [] = (RustResult.ok [], []) := by
  simp [text_to_ids]

/-- C3: on every input, `text_to_ids` returns `Ok` with a vector whose
length is exactly the input's byte length; trailing slots are not
trimmed (the length does not depend on how many ids the native routine
wrote). -/
theorem text_to_ids_length (lib : NativeLib) (model_ptr : Nat)
    (source : List Nat) :
    ∃ v, (text_to_ids lib model_ptr source).1 = RustResult.ok v ∧
      v.length = source.length := by
  by_cases h : source.length = 0
  · simp [text_to_ids, h, List.length_eq_zero.mp h]
  · simp [text_to_ids, h, writeInto_length]

/-- C4: when the input's byte length exceeds `i32::MAX`, `text_to_ids`
passes `i32::MAX` both as the text length and as the output-buffer
capacity to the native routine (saturation, not wrap-around, not a
panic — the call still happens and returns `Ok`). -/
theorem text_to_ids_saturates (lib : NativeLib) (model_ptr : Nat)
    (source : List Nat) (hbig : 2147483647 < source.length) :
    (text_to_ids lib model_ptr source).2 =
      [FfiCall.textToIds model_ptr source i32Max i32Max 3] ∧
    ∃ v, (text_to_ids lib model_ptr source).1 = RustResult.ok v := by
  have hne : ¬ source.length = 0 := by omega
  have hsat : saturate_i32 source.length = i32Max := by
    have h : ¬ ((source.length : Int) ≤ i32Max) := by
      simp only [i32Max]
      omega
    simp [saturate_i32, h]
  simp [text_to_ids, hne, hsat]

/-- Witness for C4 at an input of byte length `2^31 = i32::MAX + 1`. -/
theorem text_to_ids_saturates_witness :
    2147483647 < (List.replicate 2147483648 (0 : Nat)).length ∧
    ((text_to_ids exLib 5 (List.replicate 2147483648 (0 : Nat))).2 =
      [FfiCall.textToIds 5 (List.replicate 2147483648 (0 : Nat))
        i32Max i32Max 3] ∧
    ∃ v, (text_to_ids exLib 5
      (List.replicate 2147483648 (0 : Nat))).1 = RustResult.ok v) :=
  ⟨by rw [List.length_replicate]; norm_num,
    text_to_ids_saturates exLib 5 _ (by rw [List.length_replicate]; norm_num)⟩

/-- C5: `free_model` returns `Ok` exactly when the native `FreeModel`
reports the success status `1`, and returns `FreeModelError` exactly
when it reports any other status. -/
theorem free_model_ok_iff_success (lib : NativeLib) (model_ptr : Nat) :
    ((free_model lib model_ptr).1 = RustResult.ok () ↔
      lib.freeModelFfi model_ptr = 1) ∧
    ((free_model lib model_ptr).1 = RustResult.err Error.freeModelError ↔
      lib.freeModelFfi model_ptr ≠ 1) := by
  by_cases h : lib.freeModelFfi model_ptr = 1 <;> simp [free_model, h]

/-- C6: `text_to_ids` never returns an error (and never panics): for
every library behaviour, handle and input it returns `Ok`. -/
theorem text_to_ids_never_errs (lib : NativeLib) (model_ptr : Nat)
    (source : List Nat) :
    ∃ v, (text_to_ids lib model_ptr source).1 = RustResult.ok v := by
  by_cases h : source.length = 0 <;> simp [text_to_ids, h]

/-- C7 (counterexample): the handle type does not distinguish released
from live handles and no runtime guard exists.  With a concrete library
whose free always succeeds, `free_model` on handle `5` returns `Ok`,
yet `text_to_ids` with the very same handle still returns `Ok` and
still performs the native call with that handle. -/
theorem released_handle_accepted_cex :
    (free_model exLib 5).1 = RustResult.ok () ∧
    (text_to_ids exLib 5 [104]).1 = RustResult.ok [7] ∧
    (text_to_ids exLib 5 [104]).2 =
      [FfiCall.textToIds 5 [104] 1 1 3] := by
  decide

/-- C7 (amended): releasing a handle is not represented in the handle
type and is not checked by `text_to_ids`: even after `free_model`
succeeded on a handle, `text_to_ids` with that handle on a non-empty
input still returns `Ok` and still invokes the native routine with it;
preventing use-after-release is entirely the caller's responsibility. -/
theorem text_to_ids_after_free (lib : NativeLib) (model_ptr : Nat)
    (source : List Nat)
    (_hfree : (free_model lib model_ptr).1 = RustResult.ok ())
    (hne : ¬ source.length = 0) :
    ∃ v, (text_to_ids lib model_ptr source).1 = RustResult.ok v ∧
      (text_to_ids lib model_ptr source).2 =
        [FfiCall.textToIds model_ptr source (saturate_i32 source.length)
          (saturate_i32 source.length) 3] := by
  simp [text_to_ids, hne]

/-- Witness for the amended C7 at handle `5` and input `[104]`. -/
theorem text_to_ids_after_free_witness :
    (free_model exLib 5).1 = RustResult.ok () ∧
    ¬ ([104] : List Nat).length = 0 ∧
    (∃ v, (text_to_ids exLib 5 [104]).1 = RustResult.ok v ∧
      (text_to_ids exLib 5 [104]).2 =
        [FfiCall.textToIds 5 [104] (saturate_i32 ([104] : List Nat).length)
          (saturate_i32 ([104] : List Nat).length) 3]) :=
  ⟨by decide, by decide,
    text_to_ids_after_free exLib 5 [104] (by decide) (by decide)⟩

/-- C8: a model path with an embedded null byte makes `load_model` fail
fast — it panics at the `CString` construction — and in particular the
native `LoadModel` is never called with a truncated path. -/
theorem load_model_nul_byte_fails_fast (lib : NativeLib) (path : List Nat)
    (hnul : 0 ∈ path) :
    load_model lib path = (RustResult.panicked, []) := by
  simp [load_model, cstringNew, hnul]

/-- Witness for C8 at the path `[0]`. -/
theorem load_model_nul_byte_fails_fast_witness :
    (0 : Nat) ∈ ([0] : List Nat) ∧
    load_model exLib [0] = (RustResult.panicked, []) :=
  ⟨by decide, load_model_nul_byte_fails_fast exLib [0] (by decide)⟩

/-- C9: for every non-empty input, the one native call performed by
`text_to_ids` carries the constant algorithm selector `3`; the selector
does not depend on the library, the handle or the input. -/
theorem text_to_ids_selector_constant (lib : NativeLib) (model_ptr : Nat)
    (source : List Nat) (hne : ¬ source.length = 0) :
    (text_to_ids lib model_ptr source).2 =
      [FfiCall.textToIds model_ptr source (saturate_i32 source.length)
        (saturate_i32 source.length) 3] := by
  simp [text_to_ids, hne]

/-- Witness for C9 at handle `2` and input `[104, 105]`. -/
theorem text_to_ids_selector_constant_witness :
    ¬ ([104, 105] : List Nat).length = 0 ∧
    (text_to_ids exLib 2 [104, 105]).2 =
      [FfiCall.textToIds 2 [104, 105]
        (saturate_i32 ([104, 105] : List Nat).length)
        (saturate_i32 ([104, 105] : List Nat).length) 3] :=
  ⟨by decide, text_to_ids_selector_constant exLib 2 [104, 105] (by decide)⟩

/-- C10: the output buffer is zero-initialized before the native call,
so every slot past the run of ids the native routine wrote is exactly
zero in the returned vector: dropping the written run leaves nothing
but zeros, padding the result to the input's byte length. -/
theorem text_to_ids_padding_zero (lib : NativeLib) (model_ptr : Nat)
    (source : List Nat) (hne : ¬ source.length = 0) :
    ∃ v, (text_to_ids lib model_ptr source).1 = RustResult.ok v ∧
      v.drop (lib.textToIdsFfi model_ptr source (saturate_i32 source.length)
        (saturate_i32 source.length) 3).length =
      List.replicate (source.length - (lib.textToIdsFfi model_ptr source
        (saturate_i32 source.length) (saturate_i32 source.length) 3).length)
        (0 : Int) := by
  simp [text_to_ids, hne]
  exact writeInto_replicate_drop source.length _

/-- Witness for C10 at handle `5` and input `[104, 105]`: `exLib`
writes one id into a two-slot buffer, the second slot stays zero. -/
theorem text_to_ids_padding_zero_witness :
    ¬ ([104, 105] : List Nat).length = 0 ∧
    (∃ v, (text_to_ids exLib 5 [104, 105]).1 = RustResult.ok v ∧
      v.drop (exLib.textToIdsFfi 5 [104, 105]
        (saturate_i32 ([104, 105] : List Nat).length)
        (saturate_i32 ([104, 105] : List Nat).length) 3).length =
      List.replicate (([104, 105] : List Nat).length -
        (exLib.textToIdsFfi 5 [104, 105]
          (saturate_i32 ([104, 105] : List Nat).length)
          (saturate_i32 ([104, 105] : List Nat).length) 3).length)
        (0 : Int)) :=
  ⟨by decide, text_to_ids_padding_zero exLib 5 [104, 105] (by decide)⟩
